import Mathlib

/-!
Verification of the EKS `no-public-cluster-access-to-cidr` rule of tfsec
(`internal/app/tfsec/rules/aws/eks/no_public_cluster_access_to_cidr_rule.go`).

The rule's `CheckFunc` is embedded as `Tfsec.Evaluate`. The block/attribute
accessor package, the `result` package and the `cidr` package are external
collaborators whose sources are not part of the visible core; they are
modelled from the specification (each such definition carries a doc comment
starting with `Modelled from the spec:`).
-/

namespace Tfsec

/-- A source-location range attached to blocks and attributes for diagnostics. -/
structure SrcRange where
  filename : String
  startLine : Nat
  endLine : Nat
deriving DecidableEq, Repr

/-- The value held by a configuration attribute: a boolean, a scalar string,
or an ordered sequence of strings (for example a list of CIDR ranges). -/
inductive Val where
  | bool (b : Bool)
  | str (s : String)
  | list (xs : List String)
deriving DecidableEq, Repr

/-- A named configuration value attached to a block, with its source range. -/
structure Attribute where
  name : String
  value : Val
  range : SrcRange
deriving DecidableEq, Repr

/-- A configuration block: a lookup name, a display name, a source range,
nested blocks and attributes. -/
inductive Block where
  | mk (name : String) (fullName : String) (range : SrcRange)
      (blocks : List Block) (attributes : List Attribute)

/-- Lookup name of a block. -/
def Block.name : Block → String
  | .mk n _ _ _ _ => n

/-- Display name of a block (the Go source calls this `FullName`). -/
def Block.fullName : Block → String
  | .mk _ f _ _ _ => f

/-- Source range of a block. -/
def Block.range : Block → SrcRange
  | .mk _ _ r _ _ => r

/-- Nested blocks of a block. -/
def Block.blocks : Block → List Block
  | .mk _ _ _ bs _ => bs

/-- Attributes of a block. -/
def Block.attributes : Block → List Attribute
  | .mk _ _ _ _ as => as

/-- Modelled from the spec: the accessor package is an external collaborator;
`GetBlock` is a nullable lookup of a nested block by name, returning an
explicit empty result when the name is absent. -/
def Block.getBlock (b : Block) (n : String) : Option Block :=
  b.blocks.find? (fun c => c.name == n)

/-- Modelled from the spec: the accessor package is an external collaborator;
`GetAttribute` is a nullable lookup of an attribute by name. -/
def Block.getAttribute (b : Block) (n : String) : Option Attribute :=
  b.attributes.find? (fun a => a.name == n)

/-- Modelled from the spec: the accessor package is an external collaborator;
`MissingChild` reports that the nested configuration block of the given name
is absent. -/
def Block.missingChild (b : Block) (n : String) : Bool :=
  (b.getBlock n).isNone

/-- Modelled from the spec: the accessor package is an external collaborator;
`IsFalse` holds when the attribute is present as a boolean and evaluates to
`false` (absence is distinguished from an explicit `false`). -/
def Attribute.isFalse (a : Attribute) : Bool :=
  a.value == Val.bool false

/-- Split a character list at every occurrence of the separator `c`,
keeping empty pieces (so the number of pieces is one more than the number
of separators). -/
def splitOnChar (c : Char) : List Char → List (List Char)
  | [] => [[]]
  | x :: rest =>
    match splitOnChar c rest with
    | [] => if x = c then [[], []] else [[x]]
    | y :: ys => if x = c then [] :: y :: ys else (x :: y) :: ys

/-- Parse a run of decimal digits, accumulating its value; any non-digit
character makes the whole parse fail. -/
def parseNatAux : List Char → Nat → Option Nat
  | [], acc => some acc
  | c :: rest, acc =>
    if c.isDigit then parseNatAux rest (acc * 10 + (c.toNat - 48)) else none

/-- Parse a non-empty run of decimal digits into a natural number. -/
def parseNat? : List Char → Option Nat
  | [] => none
  | c :: rest => parseNatAux (c :: rest) 0

/-- Check that a character list is a dotted-quad IPv4 address: four
dot-separated decimal components, each at most 255. -/
def isIPv4 (cs : List Char) : Bool :=
  let parts := splitOnChar '.' cs
  parts.length == 4 &&
    parts.all (fun p => match parseNat? p with
      | some n => n ≤ 255
      | none => false)

/-- Modelled from the spec: the `cidr` package is an external collaborator;
parse a CIDR string into its network prefix length, returning `none` for a
malformed entry. -/
def parsePrefixLen (s : String) : Option Nat :=
  match splitOnChar '/' s.toList with
  | [addr, len] =>
      match parseNat? len with
      | some n => if isIPv4 addr && n ≤ 32 then some n else none
      | none => none
  | _ => none

/-- The strings held by an attribute value that is an ordered sequence;
other shapes carry no CIDR entries. -/
def valueStrings : Val → List String
  | .list xs => xs
  | _ => []

/-- Modelled from the spec: `cidr.IsOpen` is an external collaborator; it
parses each entry of the attribute value into a prefix length and returns
`true` iff some entry has prefix length zero, with malformed entries treated
as not-open. -/
def IsOpen (attr : Attribute) : Bool :=
  (valueStrings attr.value).any (fun s => parsePrefixLen s == some 0)

/-- The severity taxonomy (a fixed ordered enumeration). -/
inductive Severity where
  | critical
  | high
  | medium
  | low
  | info
deriving DecidableEq, Repr

/-- One reported misconfiguration instance, as consumed by the result sink. -/
structure Finding where
  resourceName : String
  description : String
  range : SrcRange
  annotatedAttr : Option Attribute
  severity : Severity
deriving DecidableEq, Repr

/-- The finding produced when the CIDR attribute is absent and the default
open range applies: `result.New(resourceBlock).WithDescription(...)`, with
the resource block's own range and the rule's default severity (Critical). -/
def defaultCidrFinding (resourceBlock : Block) : Finding :=
  { resourceName := resourceBlock.fullName
    description := "Resource \x27" ++ resourceBlock.fullName ++
      "\x27 uses the default public access cidr of 0.0.0.0/0"
    range := resourceBlock.range
    annotatedAttr := none
    severity := Severity.critical }

/-- The finding produced when the CIDR attribute is classified open:
`result.New(resourceBlock).WithDescription(...).WithRange(attr.Range()).WithAttributeAnnotation(attr)`,
at the rule's default severity (Critical). -/
def wideOpenFinding (resourceBlock : Block) (attr : Attribute) : Finding :=
  { resourceName := resourceBlock.fullName
    description := "Resource \x27" ++ resourceBlock.fullName ++
      "\x27 has public access cidr explicitly set to wide open"
    range := attr.range
    annotatedAttr := some attr
    severity := Severity.critical }

/-- The rule's `CheckFunc`: the result set is a list of findings to which
`set.Add` appends; the steps mirror the Go source line by line. -/
def Evaluate (set : List Finding) (resourceBlock : Block) : List Finding :=
  if resourceBlock.missingChild "vpc_config" then set
  else
    match resourceBlock.getBlock "vpc_config" with
    | none => set
    | some vpcConfig =>
      let publicAccessEnabledAttr := vpcConfig.getAttribute "endpoint_public_access"
      if (publicAccessEnabledAttr.map Attribute.isFalse).getD false then set
      else
        match vpcConfig.getAttribute "public_access_cidrs" with
        | none => set ++ [defaultCidrFinding resourceBlock]
        | some publicAccessCidrsAttr =>
          if IsOpen publicAccessCidrsAttr then
            set ++ [wideOpenFinding resourceBlock publicAccessCidrsAttr]
          else set

/-- The findings appended by one evaluation do not depend on the initial
result collection: `Evaluate` only ever appends to it. -/
theorem Evaluate_eq_append (set : List Finding) (b : Block) :
    Evaluate set b = set ++ Evaluate [] b := by
  unfold Evaluate
  split
  · simp
  · split
    · simp
    · dsimp only
      split
      · simp
      · split
        · simp
        · split <;> simp

/-! ### Concrete fixtures used by the witness theorems -/

/-- A concrete source range on the given line of a test document. -/
def rng (line : Nat) : SrcRange :=
  { filename := "main.tf", startLine := line, endLine := line }

/-- Fixture: `endpoint_public_access = true`. -/
def epaTrueAttr : Attribute :=
  { name := "endpoint_public_access", value := Val.bool true, range := rng 3 }

/-- Fixture: `endpoint_public_access = false`. -/
def epaFalseAttr : Attribute :=
  { name := "endpoint_public_access", value := Val.bool false, range := rng 3 }

/-- Fixture: `public_access_cidrs = ["0.0.0.0/0"]`. -/
def openCidrsAttr : Attribute :=
  { name := "public_access_cidrs", value := Val.list ["0.0.0.0/0"], range := rng 4 }

/-- Fixture: `public_access_cidrs = ["10.2.0.0/8"]`. -/
def safeCidrsAttr : Attribute :=
  { name := "public_access_cidrs", value := Val.list ["10.2.0.0/8"], range := rng 4 }

/-- Fixture: a `vpc_config` block holding the two given attributes. -/
def vpcConfigBlock (attrs : List Attribute) : Block :=
  Block.mk "vpc_config" "aws_eks_cluster.test.vpc_config" (rng 2) [] attrs

/-- Fixture: an `aws_eks_cluster` resource block with the given nested blocks. -/
def clusterBlock (bs : List Block) : Block :=
  Block.mk "aws_eks_cluster" "aws_eks_cluster.test" (rng 1) bs []

/-- Fixture: a `vpc_config` block with public access enabled and an open CIDR list. -/
def vpcOpen : Block := vpcConfigBlock [epaTrueAttr, openCidrsAttr]

/-- Fixture: a `vpc_config` block with public access enabled and no CIDR attribute. -/
def vpcNoCidrs : Block := vpcConfigBlock [epaTrueAttr]

/-- Fixture: a `vpc_config` block with public access disabled and an open CIDR list. -/
def vpcDisabled : Block := vpcConfigBlock [epaFalseAttr, openCidrsAttr]

/-- Fixture: a `vpc_config` block with public access enabled and a restricted CIDR list. -/
def vpcSafe : Block := vpcConfigBlock [epaTrueAttr, safeCidrsAttr]

/-- Fixture: `public_access_cidrs = ["garbage"]`, a malformed entry. -/
def badCidrsAttr : Attribute :=
  { name := "public_access_cidrs", value := Val.list ["garbage"], range := rng 4 }

/-- Fixture: `public_access_cidrs = []`, an empty sequence. -/
def emptyCidrsAttr : Attribute :=
  { name := "public_access_cidrs", value := Val.list [], range := rng 4 }

/-- Fixture: a `vpc_config` block equivalent to `vpcOpen` on the two
attributes the rule inspects, but with different ranges and an extra
unrelated attribute. -/
def vpcOpenVariant : Block :=
  Block.mk "vpc_config" "aws_eks_cluster.other.vpc_config" (rng 12) []
    [ { name := "endpoint_public_access", value := Val.bool true, range := rng 13 },
      { name := "public_access_cidrs", value := Val.list ["0.0.0.0/0"], range := rng 14 },
      { name := "security_group_ids", value := Val.list ["sg-123"], range := rng 15 } ]

/-- Fixture: a resource block differing from `clusterBlock [vpcOpen]` in
name, ranges and unrelated attributes only. -/
def clusterVariant : Block :=
  Block.mk "aws_eks_cluster" "aws_eks_cluster.other" (rng 10) [vpcOpenVariant]
    [ { name := "role_arn", value := Val.str "arn:aws:iam::0:role/x", range := rng 11 } ]

/-- The presence and value of the `endpoint_public_access` attribute of the
`vpc_config` block, ignoring ranges and everything else. -/
def epaView (b : Block) : Option (Option Val) :=
  (b.getBlock "vpc_config").map
    (fun vb => (vb.getAttribute "endpoint_public_access").map Attribute.value)

/-- The presence and value of the `public_access_cidrs` attribute of the
`vpc_config` block, ignoring ranges and everything else. -/
def cidrsView (b : Block) : Option (Option Val) :=
  (b.getBlock "vpc_config").map
    (fun vb => (vb.getAttribute "public_access_cidrs").map Attribute.value)

/-! ### Claim theorems -/

/-- C1: for a resource whose `vpc_config` block is present, whose
`endpoint_public_access` attribute is not explicitly false, and whose
`public_access_cidrs` attribute is present and classified open, `Evaluate`
appends exactly one finding at Critical severity whose source range is the
attribute range and which carries that attribute as the annotated attribute. -/
theorem evaluate_open_cidr_attr_finding (set : List Finding) (b vpc : Block)
    (attr : Attribute)
    (hvpc : b.getBlock "vpc_config" = some vpc)
    (hepa : (vpc.getAttribute "endpoint_public_access").map Attribute.isFalse ≠ some true)
    (hcidr : vpc.getAttribute "public_access_cidrs" = some attr)
    (hopen : IsOpen attr = true) :
    Evaluate set b = set ++ [wideOpenFinding b attr] ∧
    (wideOpenFinding b attr).severity = Severity.critical ∧
    (wideOpenFinding b attr).range = attr.range ∧
    (wideOpenFinding b attr).annotatedAttr = some attr := by
  refine ⟨?_, rfl, rfl, rfl⟩
  have hepa' : ((vpc.getAttribute "endpoint_public_access").map Attribute.isFalse).getD false
      = false := by
    cases h : vpc.getAttribute "endpoint_public_access" with
    | none => rfl
    | some a =>
      rw [h] at hepa
      simp only [Option.map_some', ne_eq, Option.some.injEq] at hepa
      simp [hepa]
  unfold Evaluate
  simp [Block.missingChild, hvpc, hepa', hcidr, hopen]

/-- Witness for C1 on a concrete resource block with an open CIDR list. -/
theorem evaluate_open_cidr_attr_finding_witness :
    ((clusterBlock [vpcOpen]).getBlock "vpc_config" = some vpcOpen) ∧
    (Evaluate [] (clusterBlock [vpcOpen])
        = [wideOpenFinding (clusterBlock [vpcOpen]) openCidrsAttr]) :=
  ⟨rfl,
    (evaluate_open_cidr_attr_finding [] (clusterBlock [vpcOpen]) vpcOpen openCidrsAttr
      rfl (by decide) (by decide) (by decide)).1⟩

/-- C2: for a resource whose `vpc_config` block is present, whose
`endpoint_public_access` attribute is absent or not false, and whose
`public_access_cidrs` attribute is absent, `Evaluate` appends exactly one
finding at Critical severity whose source range is the resource range, with
no annotated attribute, describing reliance on the open default. -/
theorem evaluate_default_cidr_finding (set : List Finding) (b vpc : Block)
    (hvpc : b.getBlock "vpc_config" = some vpc)
    (hepa : (vpc.getAttribute "endpoint_public_access").map Attribute.isFalse ≠ some true)
    (hcidr : vpc.getAttribute "public_access_cidrs" = none) :
    Evaluate set b = set ++ [defaultCidrFinding b] ∧
    (defaultCidrFinding b).severity = Severity.critical ∧
    (defaultCidrFinding b).range = b.range ∧
    (defaultCidrFinding b).annotatedAttr = none ∧
    (defaultCidrFinding b).description
      = "Resource \x27" ++ b.fullName ++ "\x27 uses the default public access cidr of 0.0.0.0/0" := by
  refine ⟨?_, rfl, rfl, rfl, rfl⟩
  have hepa' : ((vpc.getAttribute "endpoint_public_access").map Attribute.isFalse).getD false
      = false := by
    cases h : vpc.getAttribute "endpoint_public_access" with
    | none => rfl
    | some a =>
      rw [h] at hepa
      simp only [Option.map_some', ne_eq, Option.some.injEq] at hepa
      simp [hepa]
  unfold Evaluate
  simp [Block.missingChild, hvpc, hepa', hcidr]

/-- Witness for C2 on a concrete resource block without a CIDR attribute. -/
theorem evaluate_default_cidr_finding_witness :
    ((clusterBlock [vpcNoCidrs]).getBlock "vpc_config" = some vpcNoCidrs) ∧
    (Evaluate [] (clusterBlock [vpcNoCidrs])
        = [defaultCidrFinding (clusterBlock [vpcNoCidrs])]) :=
  ⟨rfl, (evaluate_default_cidr_finding [] (clusterBlock [vpcNoCidrs]) vpcNoCidrs
    rfl (by decide) (by decide)).1⟩

/-- C3: for a resource whose `vpc_config` block carries an
`endpoint_public_access` attribute that is present and evaluates to false,
`Evaluate` appends zero findings, regardless of the `public_access_cidrs`
attribute. -/
theorem evaluate_public_access_disabled_no_finding (set : List Finding) (b vpc : Block)
    (a : Attribute)
    (hvpc : b.getBlock "vpc_config" = some vpc)
    (hepa : vpc.getAttribute "endpoint_public_access" = some a)
    (hfalse : a.isFalse = true) :
    Evaluate set b = set := by
  unfold Evaluate
  simp [Block.missingChild, hvpc, hepa, hfalse]

/-- Witness for C3 on a concrete resource block with public access disabled
and a wide-open CIDR list present. -/
theorem evaluate_public_access_disabled_no_finding_witness :
    ((clusterBlock [vpcDisabled]).getBlock "vpc_config" = some vpcDisabled) ∧
    (Evaluate [] (clusterBlock [vpcDisabled]) = []) :=
  ⟨rfl, evaluate_public_access_disabled_no_finding [] (clusterBlock [vpcDisabled]) vpcDisabled
    epaFalseAttr rfl (by decide) (by decide)⟩

/-- C4: for a resource without a `vpc_config` nested block, `Evaluate`
appends zero findings. -/
theorem evaluate_missing_vpc_config_no_finding (set : List Finding) (b : Block)
    (hvpc : b.getBlock "vpc_config" = none) :
    Evaluate set b = set := by
  unfold Evaluate
  simp [Block.missingChild, hvpc]

/-- Witness for C4 on a concrete resource block with no nested blocks. -/
theorem evaluate_missing_vpc_config_no_finding_witness :
    ((clusterBlock []).getBlock "vpc_config" = none) ∧
    (Evaluate [] (clusterBlock []) = []) :=
  ⟨rfl, evaluate_missing_vpc_config_no_finding [] (clusterBlock []) rfl⟩

/-- C5: for a resource whose `public_access_cidrs` attribute is present and
not classified open, and whose `endpoint_public_access` attribute is not
explicitly false, `Evaluate` appends zero findings. -/
theorem evaluate_closed_cidr_no_finding (set : List Finding) (b vpc : Block)
    (attr : Attribute)
    (hvpc : b.getBlock "vpc_config" = some vpc)
    (hepa : (vpc.getAttribute "endpoint_public_access").map Attribute.isFalse ≠ some true)
    (hcidr : vpc.getAttribute "public_access_cidrs" = some attr)
    (hopen : IsOpen attr = false) :
    Evaluate set b = set := by
  have hepa' : ((vpc.getAttribute "endpoint_public_access").map Attribute.isFalse).getD false
      = false := by
    cases h : vpc.getAttribute "endpoint_public_access" with
    | none => rfl
    | some a =>
      rw [h] at hepa
      simp only [Option.map_some', ne_eq, Option.some.injEq] at hepa
      simp [hepa]
  unfold Evaluate
  simp [Block.missingChild, hvpc, hepa', hcidr, hopen]

/-- Witness for C5 on a concrete resource block with a restricted CIDR list. -/
theorem evaluate_closed_cidr_no_finding_witness :
    ((clusterBlock [vpcSafe]).getBlock "vpc_config" = some vpcSafe) ∧
    (Evaluate [] (clusterBlock [vpcSafe]) = []) :=
  ⟨rfl, evaluate_closed_cidr_no_finding [] (clusterBlock [vpcSafe]) vpcSafe safeCidrsAttr
    rfl (by decide) (by decide) (by decide)⟩

/-- C6: `IsOpen` returns true iff some entry of the attribute value parses
to prefix length zero; in particular it returns false on an empty sequence
and false on a non-empty sequence with no fully-open entry. -/
theorem isOpen_iff_exists_open_entry (attr : Attribute) (xs : List String)
    (hv : attr.value = Val.list xs) :
    (IsOpen attr = true ↔ ∃ s ∈ xs, parsePrefixLen s = some 0) ∧
    (xs = [] → IsOpen attr = false) ∧
    ((xs ≠ [] ∧ ∀ s ∈ xs, parsePrefixLen s ≠ some 0) → IsOpen attr = false) := by
  refine ⟨?_, ?_, ?_⟩
  · simp [IsOpen, valueStrings, hv, List.any_eq_true]
  · intro h
    simp [IsOpen, valueStrings, hv, h]
  · rintro ⟨-, hall⟩
    simp only [IsOpen, valueStrings, hv, List.any_eq_false]
    intro s hs
    simpa using hall s hs

/-- Witness for C6 on the concrete open and restricted CIDR lists. -/
theorem isOpen_iff_exists_open_entry_witness :
    (openCidrsAttr.value = Val.list ["0.0.0.0/0"]) ∧
    (IsOpen openCidrsAttr = true ↔ ∃ s ∈ ["0.0.0.0/0"], parsePrefixLen s = some 0) :=
  ⟨rfl, (isOpen_iff_exists_open_entry openCidrsAttr ["0.0.0.0/0"] rfl).1⟩

/-- C7: a malformed entry never makes `IsOpen` true: classification agrees
with classification over the well-formed entries alone, and a sequence of
only malformed entries classifies as not open. -/
theorem isOpen_skips_malformed (a wf : Attribute) (xs : List String)
    (hv : a.value = Val.list xs)
    (hv2 : wf.value = Val.list (xs.filter (fun s => (parsePrefixLen s).isSome))) :
    IsOpen a = IsOpen wf ∧
    ((∀ s ∈ xs, parsePrefixLen s = none) → IsOpen a = false) := by
  constructor
  · simp only [IsOpen, valueStrings, hv, hv2, List.any_filter]
    congr 1
    funext s
    cases hps : parsePrefixLen s <;> simp [hps]
  · intro hall
    simp only [IsOpen, valueStrings, hv, List.any_eq_false]
    intro s hs
    simp [hall s hs]

/-- Witness for C7 on a sequence holding only the malformed entry
`"garbage"`. -/
theorem isOpen_skips_malformed_witness :
    (badCidrsAttr.value = Val.list ["garbage"]) ∧
    (IsOpen badCidrsAttr = IsOpen emptyCidrsAttr) ∧
    (IsOpen badCidrsAttr = false) :=
  ⟨rfl,
    (isOpen_skips_malformed badCidrsAttr emptyCidrsAttr ["garbage"] rfl (by decide)).1,
    (isOpen_skips_malformed badCidrsAttr emptyCidrsAttr ["garbage"] rfl (by decide)).2
      (by decide)⟩

/-- C8: for every resource block and initial result collection, `Evaluate`
returns the initial collection either unchanged or with exactly one finding
appended at the end; existing entries are never removed or mutated. -/
theorem evaluate_appends_at_most_one (set : List Finding) (b : Block) :
    Evaluate set b = set ∨ ∃ f, Evaluate set b = set ++ [f] := by
  unfold Evaluate
  split
  · exact Or.inl rfl
  · split
    · exact Or.inl rfl
    · dsimp only
      split
      · exact Or.inl rfl
      · split
        · exact Or.inr ⟨_, rfl⟩
        · split
          · exact Or.inr ⟨_, rfl⟩
          · exact Or.inl rfl

/-- C9: `Evaluate` is deterministic: two invocations on the same tree from
the same initial collection agree, and the appended findings depend only on
the tree, not on the initial collection. -/
theorem evaluate_deterministic (set : List Finding) (b : Block) :
    Evaluate set b = Evaluate set b ∧
    (Evaluate set b).drop set.length = Evaluate [] b := by
  refine ⟨rfl, ?_⟩
  rw [Evaluate_eq_append]
  exact List.drop_left set (Evaluate [] b)

/-- C10: noninterference of unrelated configuration: two resource trees
agreeing on the presence of `vpc_config` and on the presence/value of its
`endpoint_public_access` and `public_access_cidrs` attributes receive the
same number of findings, at the same severity, with the same branch
(attribute-annotated wide-open finding versus unannotated default finding). -/
theorem evaluate_noninterference (set : List Finding) (b₁ b₂ : Block)
    (hp : (b₁.getBlock "vpc_config").isSome = (b₂.getBlock "vpc_config").isSome)
    (hepa : epaView b₁ = epaView b₂)
    (hcidrs : cidrsView b₁ = cidrsView b₂) :
    ((Evaluate set b₁).drop set.length).map (fun f => (f.severity, f.annotatedAttr.isSome))
      = ((Evaluate set b₂).drop set.length).map (fun f => (f.severity, f.annotatedAttr.isSome)) ∧
    ((Evaluate set b₁).drop set.length).length
      = ((Evaluate set b₂).drop set.length).length := by
  have key : (Evaluate [] b₁).map (fun f => (f.severity, f.annotatedAttr.isSome))
      = (Evaluate [] b₂).map (fun f => (f.severity, f.annotatedAttr.isSome)) := by
    unfold epaView at hepa
    unfold cidrsView at hcidrs
    cases h₁ : b₁.getBlock "vpc_config" with
    | none =>
      cases h₂ : b₂.getBlock "vpc_config" with
      | none =>
        unfold Evaluate
        simp [Block.missingChild, h₁, h₂]
      | some vb₂ =>
        rw [h₁, h₂] at hp
        simp at hp
    | some vb₁ =>
      cases h₂ : b₂.getBlock "vpc_config" with
      | none =>
        rw [h₁, h₂] at hp
        simp at hp
      | some vb₂ =>
        rw [h₁, h₂] at hepa hcidrs
        simp only [Option.map_some', Option.some.injEq] at hepa hcidrs
        have hcond :
            ((vb₁.getAttribute "endpoint_public_access").map Attribute.isFalse).getD false
              = ((vb₂.getAttribute "endpoint_public_access").map Attribute.isFalse).getD false := by
          cases e₁ : vb₁.getAttribute "endpoint_public_access" with
          | none =>
            cases e₂ : vb₂.getAttribute "endpoint_public_access" with
            | none => rfl
            | some a₂ =>
              rw [e₁, e₂] at hepa
              simp at hepa
          | some a₁ =>
            cases e₂ : vb₂.getAttribute "endpoint_public_access" with
            | none =>
              rw [e₁, e₂] at hepa
              simp at hepa
            | some a₂ =>
              rw [e₁, e₂] at hepa
              simp only [Option.map_some', Option.some.injEq] at hepa
              simp [Attribute.isFalse, hepa]
        unfold Evaluate
        simp only [Block.missingChild, h₁, h₂, Option.isNone_some, Bool.false_eq_true,
          if_false]
        rw [hcond]
        by_cases hc :
            ((vb₂.getAttribute "endpoint_public_access").map Attribute.isFalse).getD false
        · simp [hc]
        · simp only [hc, Bool.false_eq_true, if_false]
          cases c₁ : vb₁.getAttribute "public_access_cidrs" with
          | none =>
            cases c₂ : vb₂.getAttribute "public_access_cidrs" with
            | none => simp [defaultCidrFinding]
            | some a₂ =>
              rw [c₁, c₂] at hcidrs
              simp at hcidrs
          | some a₁ =>
            cases c₂ : vb₂.getAttribute "public_access_cidrs" with
            | none =>
              rw [c₁, c₂] at hcidrs
              simp at hcidrs
            | some a₂ =>
              rw [c₁, c₂] at hcidrs
              simp only [Option.map_some', Option.some.injEq] at hcidrs
              have hopen : IsOpen a₁ = IsOpen a₂ := by
                simp [IsOpen, hcidrs]
              by_cases ho : IsOpen a₂
              · simp [hopen, ho, wideOpenFinding]
              · simp [hopen, ho]
  constructor
  · rw [Evaluate_eq_append set b₁, Evaluate_eq_append set b₂, List.drop_left,
      List.drop_left]
    exact key
  · rw [Evaluate_eq_append set b₁, Evaluate_eq_append set b₂, List.drop_left,
      List.drop_left]
    have := congrArg List.length key
    simpa using this

/-- Witness for C10 on two concrete resource blocks differing only in names,
ranges and unrelated attributes. -/
theorem evaluate_noninterference_witness :
    (epaView (clusterBlock [vpcOpen]) = epaView clusterVariant) ∧
    (cidrsView (clusterBlock [vpcOpen]) = cidrsView clusterVariant) ∧
    (((Evaluate [] (clusterBlock [vpcOpen])).drop 0).map
        (fun f => (f.severity, f.annotatedAttr.isSome))
      = ((Evaluate [] clusterVariant).drop 0).map
        (fun f => (f.severity, f.annotatedAttr.isSome))) :=
  ⟨by decide, by decide,
    (evaluate_noninterference [] (clusterBlock [vpcOpen]) clusterVariant rfl
      (by decide) (by decide)).1⟩

end Tfsec

section Scratch
open Tfsec

example : parsePrefixLen "0.0.0.0/0" = some 0 := by decide

example : parsePrefixLen "10.2.0.0/8" = some 8 := by decide

example : parsePrefixLen "garbage" = none := by decide

end Scratch
